import Mathlib

/-!
A verification development for the pyCactiSynth project/voicebank data layer
(`model.py`, `parser.py`).  Python strings are embedded as `List Char`;
Python `float` values that arise here come only from parsing decimal text, so
they are embedded as exact signed decimals (`PFloat`); fallible operations
(code whose exceptions are swallowed by the `catch_exception` decorator,
which makes the call return `None`) are embedded with `Option`.
-/

namespace CactiSynth

/-- Python `s.replace(c, "", 1)`: remove the first occurrence of `c`. -/
def removeFirst (c : Char) : List Char → List Char
  | [] => []
  | x :: xs => if x = c then xs else x :: removeFirst c xs

/-- Python `s.split(sep, maxsplit=1)` viewed as an optional split at the first
occurrence of `sep`: `none` when `sep` does not occur. -/
def splitOnce (sep : Char) : List Char → Option (List Char × List Char)
  | [] => none
  | x :: xs =>
    if x = sep then some ([], xs)
    else (splitOnce sep xs).map (fun p => (x :: p.1, p.2))

/-- Python `s.split(sep, maxsplit=k)` (single-character separator). -/
def splitN (sep : Char) : Nat → List Char → List (List Char)
  | 0, s => [s]
  | k + 1, s =>
    match splitOnce sep s with
    | none => [s]
    | some (a, b) => a :: splitN sep k b

/-- Python `s.split(sep)` without `maxsplit`; a fuel of `s.length` is enough
since every split consumes at least the separator character. -/
def splitAll (sep : Char) (l : List Char) : List (List Char) :=
  splitN sep l.length l

/-- Python `s.isdigit()` (restricted to ASCII digits, the only ones relevant
to the numeric fields handled here). -/
def pyIsdigit (l : List Char) : Bool :=
  !l.isEmpty && l.all Char.isDigit

/-- The numeric filter of `OTOEntry.from_string`:
`d.replace('-', '', 1).replace(".", "", 1).isdigit()`. -/
def filterOK (d : List Char) : Bool :=
  pyIsdigit (removeFirst '.' (removeFirst '-' d))

/-- A Python `float` value as produced by `float(decimal-text)`: an exact
signed decimal, with the fractional digits normalized (no trailing zeros).
This embedding is exact on every decimal literal; it abstracts away the
binary-float rounding that `float` performs, which no claim here observes. -/
structure PFloat where
  neg : Bool
  ip : Nat
  frac : List Nat
deriving DecidableEq, Repr

/-- The float `0.0` (also standing for the plain `0` the fallback assigns,
which is numerically equal). -/
def PFloat.zero : PFloat := ⟨false, 0, []⟩

/-- Drop trailing zero digits of a fractional-digit list. -/
def stripTrailingZeros (ds : List Nat) : List Nat :=
  (ds.reverse.dropWhile (fun d => d = 0)).reverse

/-- Value of a big-endian list of digit characters (Python `int` on an
all-digit string, and the digit accumulation inside `float`). -/
def digitsVal (l : List Char) : Nat :=
  l.foldl (fun a c => 10 * a + (c.toNat - 48)) 0

/-- Digit characters to digit values. -/
def charDigits (l : List Char) : List Nat :=
  l.map (fun c => c.toNat - 48)

/-- `float(s)` on an unsigned decimal: either all digits, or digits around a
single decimal point (not both sides empty). -/
def pyFloatCore (l : List Char) : Option PFloat :=
  match splitOnce '.' l with
  | none => if pyIsdigit l then some ⟨false, digitsVal l, []⟩ else none
  | some (a, b) =>
    if a.all Char.isDigit && b.all Char.isDigit && !(a.isEmpty && b.isEmpty) then
      some ⟨false, digitsVal a, stripTrailingZeros (charDigits b)⟩
    else none

/-- Python `float(s)` on the strings reachable here: an optional leading `-`
followed by an unsigned decimal; `none` embeds a `ValueError`. -/
def pyFloat (l : List Char) : Option PFloat :=
  match l with
  | c :: rest =>
    if c = '-' then (pyFloatCore rest).map (fun f => { f with neg := true })
    else pyFloatCore (c :: rest)
  | [] => pyFloatCore []

/-- One sample's timing metadata (`OTOEntry` in `model.py`).  The numeric
fields hold exact decimals; the fallback branch assigns the Python int `0`,
numerically equal to `0.0`, embedded as `PFloat.zero`. -/
structure OTOEntry where
  file : List Char
  «alias» : List Char
  offset : PFloat
  fixed : PFloat
  blank : PFloat
  preutter : PFloat
  overlap : PFloat
deriving DecidableEq, Repr

/-- `OTOEntry()`: the pydantic defaults (`""` strings, `0.0` floats). -/
def OTOEntry.default : OTOEntry :=
  ⟨[], [], .zero, .zero, .zero, .zero, .zero⟩

/-- The numeric group of `OTOEntry.from_string`: filter the five raw fields
by the digit test, convert each survivor with `float`, and unpack into
exactly five values; `none` embeds the `ValueError` that triggers the
fallback (either a failing `float(d)` or a wrong number of survivors). -/
def groupResult (fields : List (List Char)) :
    Option (PFloat × PFloat × PFloat × PFloat × PFloat) :=
  match (fields.filter filterOK).mapM pyFloat with
  | some [a, b, c, d, e] => some (a, b, c, d, e)
  | _ => none

/-- `OTOEntry.from_string(line)`.  Returns the parsed entry together with a
flag recording whether the fallback diagnostic was printed; `none` embeds the
`IndexError` (line without `=`) swallowed by `catch_exception`, which makes
the Python call return `None`. -/
def OTOEntry.from_string (line0 : List Char) : Option (OTOEntry × Bool) :=
  let line := removeFirst '\n' line0
  match splitOnce '=' line with
  | none => none
  | some (file, rest) =>
    let fields := splitN ',' 5 rest
    let a := fields.headD []
    let al := if a.isEmpty then (splitN '.' 1 file).headD [] else a
    match groupResult (fields.drop 1) with
    | some (o, f, b, p, ov) => some (⟨file, al, o, f, b, p, ov⟩, false)
    | none => some (⟨file, al, .zero, .zero, .zero, .zero, .zero⟩, true)

/-- The legal field names of `find_entry`'s reflective
`entry.__getattribute__(target)` lookup. -/
inductive OTOField
  | file | alias | offset | fixed | blank | preutter | overlap
deriving DecidableEq, Repr

/-- A Python value compared against an entry field: a string or a float. -/
inductive FieldVal
  | s (v : List Char)
  | f (v : PFloat)
deriving DecidableEq, Repr

instance : BEq FieldVal := ⟨fun a b => decide (a = b)⟩

/-- `entry.__getattribute__(target)` for the seven data fields. -/
def OTOEntry.getField (e : OTOEntry) : OTOField → FieldVal
  | .file => .s e.file
  | .alias => .s e.«alias»
  | .offset => .f e.offset
  | .fixed => .f e.fixed
  | .blank => .f e.blank
  | .preutter => .f e.preutter
  | .overlap => .f e.overlap

/-- An OTO configuration (`OTOSetting` in `model.py`).  `from_file` appends
the *result* of `OTOEntry().from_string(line)` for every line, and that
result is Python `None` when the line parse raised, so the stored sequence
is a list of optional entries. -/
structure OTOSetting where
  size : Nat
  path : List Char
  settings : List (Option OTOEntry)
deriving DecidableEq, Repr

/-- `OTOSetting()`: the pydantic defaults. -/
def OTOSetting.default : OTOSetting := ⟨0, [], []⟩

/-- `OTOSetting.from_file(path)` with the file contents given as its list of
lines: append one (possibly failed) entry per line to the existing sequence
and overwrite `size` with the number of lines just read. -/
def OTOSetting.from_file (s : OTOSetting) (path : List Char)
    (lines : List (List Char)) : OTOSetting :=
  { s with
    path := path
    settings := s.settings ++ lines.map (fun l => (OTOEntry.from_string l).map Prod.fst)
    size := lines.length }

/-- `OTOSetting.remove_entry(index)`: `list.pop` mutates on a valid index and
raises (swallowed, `None` returned) otherwise.  First component: the state
after the call; second: the returned value. -/
def OTOSetting.remove_entry (s : OTOSetting) (i : Nat) :
    OTOSetting × Option OTOSetting :=
  if i < s.settings.length then
    let s2 := { s with settings := s.settings.eraseIdx i }
    (s2, some s2)
  else (s, none)

/-- Python `list.insert(i, a)` for a nonnegative index: clamps to the length. -/
def pyInsert (i : Nat) (a : α) (l : List α) : List α :=
  l.take i ++ a :: l.drop i

/-- `OTOSetting.append_entry(index, data)`: `list.insert` never fails. -/
def OTOSetting.append_entry (s : OTOSetting) (i : Nat) (e : OTOEntry) :
    OTOSetting :=
  { s with settings := pyInsert i (some e) s.settings }

/-- The scan loop shared by `OTOSetting.find_entry` and
`VoiceBank.find_entry`: accumulate matching entries in order; touching a
failed (`None`) entry raises `AttributeError`, swallowed by the decorator, so
the whole lookup returns `none`. -/
def findLoop (t : OTOField) (v : FieldVal) :
    List (Option OTOEntry) → List OTOEntry → Option (List OTOEntry)
  | [], acc => some acc
  | none :: _, _ => none
  | some e :: rest, acc =>
    findLoop t v rest (if e.getField t == v then acc ++ [e] else acc)

/-- `OTOSetting.find_entry(target, data)`: the matches in scan order, or a
single default entry when there is none. -/
def OTOSetting.find_entry (s : OTOSetting) (t : OTOField) (v : FieldVal) :
    Option (List OTOEntry) :=
  (findLoop t v s.settings []).map
    (fun r => if r.isEmpty then [OTOEntry.default] else r)

/-- A sung syllable event (`Note` in `model.py`).  Numeric fields are Python
ints; pydantic enforces `ge=0` at construction, which the UST-parsing
constructor models, but values are stored as plain integers. -/
structure Note where
  length : Int
  lyric : List Char
  note_num : Int
  pre_utterance : Int := 0
  velocity : Int := 100
  intensity : Int := 0
  modulation : Int := 0
  start_point : Int := 0
deriving DecidableEq, Repr

/-- A song project (`Project` in `model.py`); paths are kept as strings. -/
structure Project where
  version : List Char := "OKMT 0.0.0".data
  tempo : PFloat := ⟨false, 120, []⟩
  tracks : Int := 1
  name : List Char := "Untitled".data
  voice_dir : List Char := []
  out_file : List Char := []
  cache_dir : List Char := []
  tools : List (List Char) := []
  modes : List (List Char) := []
  flags : List (List Char) := []
  notes : List Note := []
deriving DecidableEq, Repr

/-- Insert a note into a list already sorted ascending by `start_point`,
after any run of equal keys (the stable position). -/
def insertSorted (n : Note) : List Note → List Note
  | [] => [n]
  | m :: ms =>
    if m.start_point ≤ n.start_point then m :: insertSorted n ms
    else n :: m :: ms

/-- The stable ascending sort by `start_point` performed by Python
`list.sort(key=lambda note: note.start_point)`. -/
def sortedByStart (l : List Note) : List Note :=
  l.foldl (fun acc n => insertSorted n acc) []

/-- `Project.sort_notes()` (ascending, the only direction the code uses). -/
def Project.sort_notes (p : Project) : Project :=
  { p with notes := sortedByStart p.notes }

/-- `Project.is_empty`. -/
def Project.is_empty (p : Project) : Bool :=
  p.notes.length = 0

/-- `Project.find_note_index(note)`: take the ascending `start_point` list of
a sorted copy; index `0` when the new key is at most the first, `len - 1`
when it is at least the last, otherwise the index of the first strictly
greater key.  `none` embeds the `IndexError` on an empty project (swallowed
by `catch_exception`, so the call returns `None`). -/
def Project.find_note_index (p : Project) (n : Note) : Option Nat :=
  match (sortedByStart p.notes).map Note.start_point with
  | [] => none
  | s0 :: rest =>
    if n.start_point ≤ s0 then some 0
    else if (s0 :: rest).getLast (by simp) ≤ n.start_point then
      some (p.notes.length - 1)
    else
      match ((s0 :: rest).filter (fun s => n.start_point < s)).map
          (fun s => (s0 :: rest).indexOf s) with
      | [] => none
      | i :: _ => some i

/-- One iteration of the `add_note` loop: compute the insertion index on the
current notes and insert there; `none` embeds the `TypeError` raised by
`list.insert(None, note)` when `find_note_index` returned `None`. -/
def addNoteStep (p : Project) (n : Note) : Option Project :=
  (p.find_note_index n).map (fun i => { p with notes := pyInsert i n p.notes })

/-- The `add_note` loop over the remaining notes: on the first failing
insertion the exception escapes, freezing the state reached so far. -/
def addNoteGo : Project → List Note → Project × Option Project
  | p, [] => (p, some p)
  | p, n :: ns =>
    match addNoteStep p n with
    | none => (p, none)
    | some p2 => addNoteGo p2 ns

/-- `Project.add_note(*notes)`: sort the existing notes, then insert each new
note at its computed index.  First component: the state of the project after
the call (mutation survives a swallowed exception); second: the returned
value (`none` when the decorator swallowed an exception). -/
def Project.add_note (p : Project) (ns : List Note) : Project × Option Project :=
  addNoteGo p.sort_notes ns

/-- `Project.remove_note_by_index(index)` (nonnegative indices): pop mutates
on a valid index and raises (swallowed) otherwise. -/
def Project.remove_note_by_index (p : Project) (i : Nat) :
    Project × Option Project :=
  if i < p.notes.length then
    let p2 := { p with notes := p.notes.eraseIdx i }
    (p2, some p2)
  else (p, none)

/-- `Project.get_note(index)` (nonnegative indices). -/
def Project.get_note (p : Project) (i : Nat) : Option Note :=
  p.notes.get? i

/-- Adjacent-pairs check that a note list is ascending by `start_point`. -/
def ascByStart : List Note → Bool
  | [] => true
  | [_] => true
  | a :: b :: t => (a.start_point ≤ b.start_point) && ascByStart (b :: t)

/-- The scalar metadata fields filled by the `character.txt` scan of
`VoiceBank.__init__`, with their pydantic defaults. -/
structure VBMeta where
  name : List Char := "None".data
  author : List Char := "None".data
  image : List Char := "None".data
  sample : List Char := "Random".data
  web : List Char := "None".data
deriving DecidableEq, Repr

/-- The positional list `target = ["name", "author", "image", "sample", "web"]`. -/
def vbTargets : List (List Char) :=
  ["name".data, "author".data, "image".data, "sample".data, "web".data]

/-- `self.__setattr__(target[i], v)`. -/
def vbSet (m : VBMeta) (i : Nat) (v : List Char) : VBMeta :=
  match i with
  | 0 => { m with name := v }
  | 1 => { m with author := v }
  | 2 => { m with image := v }
  | 3 => { m with sample := v }
  | _ => { m with web := v }

/-- `lines.lower().startswith(f"{target[i]}=")`. -/
def vbMatch (i : Nat) (line : List Char) : Bool :=
  ((vbTargets.getD i []) ++ ['=']).isPrefixOf (line.map Char.toLower)

/-- One line of the `character.txt` scan: on a prefix match, assign the
currently expected field from the text after the first `=` (newline removed);
then `i += 1 if i < len(target) - 1 else 0`, which advances the index on
every line until it reaches the last field. -/
def vbStep (st : VBMeta × Nat) (line : List Char) : VBMeta × Nat :=
  let m :=
    if vbMatch st.2 line then
      vbSet m₀ st.2 (removeFirst '\n' ((splitOnce '=' line).map Prod.snd |>.getD []))
    else m₀
  (m, if st.2 < vbTargets.length - 1 then st.2 + 1 else st.2)
where m₀ := st.1

/-- The whole `character.txt` scan, starting from the defaults at index 0. -/
def vbScan (lines : List (List Char)) : VBMeta × Nat :=
  lines.foldl vbStep ({}, 0)

/-- `VoiceBank.find_entry(target, data)`: the same accumulate-or-default scan
as `OTOSetting.find_entry`, over every stored OTO configuration in order. -/
def VoiceBank.find_entry (sets : List OTOSetting) (t : OTOField) (v : FieldVal) :
    Option (List OTOEntry) :=
  (findLoop t v (sets.flatMap OTOSetting.settings) []).map
    (fun r => if r.isEmpty then [OTOEntry.default] else r)

/-- Python whitespace for `str.strip()`. -/
def pySpace (c : Char) : Bool :=
  c = ' ' || c = '\t' || c = '\n' || c = '\r' || c = '\x0b' || c = '\x0c'

/-- Python `s.strip()`. -/
def pyStrip (l : List Char) : List Char :=
  ((l.dropWhile pySpace).reverse.dropWhile pySpace).reverse

/-- Python `int(s)` on clean text: optional sign then digits;
`none` embeds a `ValueError`. -/
def pyInt (l : List Char) : Option Int :=
  match l with
  | c :: rest =>
    if c = '-' then (if pyIsdigit rest then some (-(digitsVal rest : Int)) else none)
    else if c = '+' then (if pyIsdigit rest then some (digitsVal rest : Int) else none)
    else if pyIsdigit (c :: rest) then some (digitsVal (c :: rest) : Int) else none
  | [] => none

/-- The chunk dictionary of `USTParser.__parse_chunks`: keys in insertion
order, each with its body lines. -/
abbrev Chunks := List (List Char × List (List Char))

/-- `chunk[key] = []`: a repeated header resets the existing key's content in
place; a new header is appended. -/
def chunkUpdate (cs : Chunks) (k : List Char) : Chunks :=
  if cs.any (fun p => p.1 = k) then
    cs.map (fun p => if p.1 = k then (k, ([] : List (List Char))) else p)
  else cs ++ [(k, [])]

/-- `chunk[list(chunk.keys())[-1]].append(v)`: append a body line to the key
that was inserted last; `none` embeds the `IndexError` when no chunk is open
yet. -/
def chunkAppendLast (cs : Chunks) (v : List Char) : Option Chunks :=
  match cs.getLast? with
  | none => none
  | some last => some (cs.dropLast ++ [(last.1, last.2 ++ [v])])

/-- `USTParser.__parse_chunks(lines)`: a raw line starting with `[` opens the
chunk keyed by the stripped line; any other line is appended (stripped) to
the last opened chunk. -/
def parseChunks (lines : List (List Char)) : Option Chunks :=
  lines.foldlM
    (fun cs line =>
      if line.head? = some '[' then some (chunkUpdate cs (pyStrip line))
      else chunkAppendLast cs (pyStrip line))
    []

/-- A value held in the `setting` dictionary: a raw `key=value` string, or
one of the accumulated `tools`/`modes`/`flags` lists. -/
inductive SVal
  | s (v : List Char)
  | l (vs : List (List Char))
deriving DecidableEq, Repr

/-- The `setting` dictionary, with Python overwrite semantics realized by
appending and reading the last binding. -/
abbrev SDict := List (List Char × SVal)

/-- `setting.get(k)`: the most recent binding. -/
def dictGet (d : SDict) (k : List Char) : Option SVal :=
  (d.reverse.find? (fun p => p.1 = k)).map Prod.snd

/-- `setting[k] = v`. -/
def dictSet (d : SDict) (k : List Char) (v : SVal) : SDict :=
  d ++ [(k, v)]

/-- `setting[k] = setting.get(k, []) + [v]` for the three list keys; `none`
embeds the `TypeError` of concatenating a list to a previously stored
string. -/
def dictAppendList (d : SDict) (k : List Char) (v : List Char) : Option SDict :=
  match dictGet d k with
  | none => some (dictSet d k (.l [v]))
  | some (.l vs) => some (dictSet d k (.l (vs ++ [v])))
  | some (.s _) => none

/-- One line of `USTParser.__parse_setting`: `key, value = line.split("=")`
(which demands exactly one `=`), route `Tool`/`Mode`/`Flags` prefixes into
the ordered lists, and always store the raw pair. -/
def parseSettingStep (d : SDict) (line : List Char) : Option SDict := do
  match splitAll '=' line with
  | [k, v] =>
    let d ←
      if "Tool".data.isPrefixOf k then dictAppendList d "tools".data v
      else if "Mode".data.isPrefixOf k then dictAppendList d "modes".data v
      else if "Flags".data.isPrefixOf k then dictAppendList d "flags".data v
      else some d
    some (dictSet d k (.s v))
  | _ => none

/-- `USTParser.__parse_setting(lines)`. -/
def parseSettingLines (lines : List (List Char)) : Option SDict :=
  lines.foldlM parseSettingStep []

/-- The raw `key=value` pairs of a note chunk (split at the first `=`;
other lines skipped), read with dictionary last-wins semantics. -/
def notePairs (content : List (List Char)) : List (List Char × List Char) :=
  content.filterMap (fun l =>
    match splitN '=' 1 l with
    | [a, b] => some (a, b)
    | _ => none)

/-- Last-wins lookup in the note pair dictionary. -/
def pairsGet (pairs : List (List Char × List Char)) (k : List Char) :
    Option (List Char) :=
  (pairs.reverse.find? (fun p => p.1 = k)).map Prod.snd

/-- pydantic `ge=0` constraint check. -/
def geZero (i : Int) : Option Int :=
  if 0 ≤ i then some i else none

/-- A required nonnegative int field of `Note` (missing or unparsable or
negative values raise `ValidationError`, failing the surrounding parse). -/
def noteReqInt (pairs : List (List Char × List Char)) (k : List Char) :
    Option Int :=
  (pairsGet pairs k).bind pyInt >>= geZero

/-- An optional nonnegative int field of `Note` with the `v or 0`
pre-validator: an empty string becomes `0` before coercion. -/
def noteOptInt (pairs : List (List Char × List Char)) (k : List Char)
    (dflt : Int) : Option Int :=
  match pairsGet pairs k with
  | none => some dflt
  | some v => if v.isEmpty then some 0 else pyInt v >>= geZero

/-- `Note(**pairs)`: pydantic construction by alias with coercion;
`none` embeds a `ValidationError`. -/
def mkNote (pairs : List (List Char × List Char)) : Option Note := do
  let length ← noteReqInt pairs "Length".data
  let lyric ← pairsGet pairs "Lyric".data
  let note_num ← noteReqInt pairs "NoteNum".data
  let pre_utterance ← noteOptInt pairs "PreUtterance".data 0
  let velocity ← noteOptInt pairs "Velocity".data 100
  let intensity ← noteOptInt pairs "Intensity".data 0
  let modulation ← noteOptInt pairs "Modulation".data 0
  let start_point ← noteOptInt pairs "StartPoint".data 0
  some ⟨length, lyric, note_num, pre_utterance, velocity, intensity,
    modulation, start_point⟩

/-- `USTParser.__parse_note(lines)`: an empty chunk yields no note
(`some none`); otherwise construct the note, a `ValidationError` escaping to
the top-level parse (`none`). -/
def parseNoteChunk (content : List (List Char)) : Option (Option Note) :=
  if content.isEmpty then some none
  else (mkNote (notePairs content)).map some

/-- A string-typed `Project` field fed from the setting dictionary (a stored
list raises `ValidationError`). -/
def projStrField (d : SDict) (k : List Char) (dflt : List Char) :
    Option (List Char) :=
  match dictGet d k with
  | none => some dflt
  | some (.s v) => some v
  | some (.l _) => none

/-- A list-typed `Project` field (`tools`/`modes`/`flags`); a raw string
stored under the same key raises `ValidationError`. -/
def projListField (d : SDict) (k : List Char) :
    Option (List (List Char)) :=
  match dictGet d k with
  | none => some []
  | some (.l vs) => some vs
  | some (.s _) => none

/-- `Project(version=version, **setting, notes=notes)`: look each aliased
field up in the setting dictionary and coerce; unknown keys are ignored
(pydantic default config).  `none` embeds a `ValidationError`. -/
def projectOfSetting (version : List Char) (d : SDict) (notes : List Note) :
    Option Project := do
  let tempo ←
    match dictGet d "Tempo".data with
    | none => some (⟨false, 120, []⟩ : PFloat)
    | some (.s v) => pyFloat v
    | some (.l _) => none
  let tracks ←
    match dictGet d "Tracks".data with
    | none => some (1 : Int)
    | some (.s v) => pyInt v
    | some (.l _) => none
  let name ← projStrField d "ProjectName".data "Untitled".data
  let voice_dir ← projStrField d "VoiceDir".data []
  let out_file ← projStrField d "OutFile".data []
  let cache_dir ← projStrField d "CacheDir".data []
  let tools ← projListField d "tools".data
  let modes ← projListField d "modes".data
  let flags ← projListField d "flags".data
  some ⟨version, tempo, tracks, name, voice_dir, out_file, cache_dir,
    tools, modes, flags, notes⟩

/-- The chunk dispatch state of `USTParser.parse`: current version text,
setting dictionary, and collected notes. -/
abbrev ParseState := List Char × SDict × List Note

/-- Dispatch one chunk of `USTParser.parse`: strip the surrounding brackets
and any leading `#`, case-fold, then handle `version` / `setting` / all-digit
names; anything else is skipped.  (`if not name: return` is unreachable since
keys start with `[`, but is embedded faithfully.) -/
def parseDispatch (st : ParseState) (kc : List Char × List (List Char)) :
    Option ParseState := do
  let (ver, d, ns) := st
  if kc.1.isEmpty then none
  else
    let name := (((kc.1.drop 1).dropLast).dropWhile (fun c => c = '#')).map
      Char.toLower
    if name = "version".data then some (kc.2.headD [], d, ns)
    else if name = "setting".data then do
      let d2 ← parseSettingLines kc.2
      some (ver, d2, ns)
    else if !name.isEmpty && name.all Char.isDigit then do
      match ← parseNoteChunk kc.2 with
      | none => some (ver, d, ns)
      | some n => some (ver, d, ns ++ [n])
    else some st

/-- `USTParser.parse` with the file contents given as its list of raw lines:
chunk the input, dispatch every chunk, and build the `Project`; `none` embeds
any escaping exception (swallowed by `catch_exception`, so the Python call
returns `None`). -/
def USTParser.parse (lines : List (List Char)) : Option Project := do
  let chunks ← parseChunks lines
  let st ← chunks.foldlM parseDispatch (([], [], []) : ParseState)
  projectOfSetting st.1 st.2.1 st.2.2

/-- The top-level object a successful unpickling can produce. -/
inductive PickleTop
  | proj : Project → PickleTop
  | other
deriving DecidableEq

/-- The outcome of the external `pickle.loads` call inside
`Project.from_file`: a deserialized top-level object, or one of the
exception kinds the code catches. -/
inductive PickleOutcome
  | value : PickleTop → PickleOutcome
  | errEOF
  | errUnpickling
  | errType
  | errOther
deriving DecidableEq

/-- The diagnostic `Project.from_file` logs on failure: the distinguishable
`"... is not a valid project file"` message, the missing-file message of the
first assertion, or the unknown-error report. -/
inductive LoadMsg
  | invalidProjectFile
  | notAFile
  | unknownError
deriving DecidableEq, Repr

/-- `Project.from_file(path)` with the filesystem check and the `pickle.loads`
call abstracted into inputs: the returned value together with the logged
diagnostic.  A wrong top-level type fails the `isinstance` assertion; EOF /
unpickling / type errors are caught and reported with the same
"not a valid project file" message; anything else is reported as unknown.
Every failure path returns `None`. -/
def Project.from_file (isFile : Bool) (outcome : PickleOutcome) :
    Option Project × Option LoadMsg :=
  if !isFile then (none, some .notAFile)
  else
    match outcome with
    | .value (.proj p) => (some p, none)
    | .value .other => (none, some .invalidProjectFile)
    | .errEOF => (none, some .invalidProjectFile)
    | .errUnpickling => (none, some .invalidProjectFile)
    | .errType => (none, some .invalidProjectFile)
    | .errOther => (none, some .unknownError)

/-! ### Helper lemmas about the string primitives -/

theorem splitOnce_of_not_mem {c : Char} {l : List Char} (h : c ∉ l) :
    splitOnce c l = none := by
  induction l with
  | nil => rfl
  | cons x xs ih =>
    simp only [List.mem_cons, not_or] at h
    simp [splitOnce, Ne.symm h.1, ih h.2]

theorem splitN_of_not_mem {c : Char} {l : List Char} (k : Nat) (h : c ∉ l) :
    splitN c k l = [l] := by
  cases k with
  | zero => rfl
  | succ k => simp [splitN, splitOnce_of_not_mem h]

theorem ne_of_isDigit {c c2 : Char} (h : c.isDigit = true)
    (h2 : c2.isDigit = false) : c ≠ c2 := by
  intro he
  rw [he, h2] at h
  cases h

theorem findLoop_map_some (t : OTOField) (v : FieldVal) (es : List OTOEntry)
    (acc : List OTOEntry) :
    findLoop t v (es.map some) acc =
      some (acc ++ es.filter (fun e => e.getField t == v)) := by
  induction es generalizing acc with
  | nil => simp [findLoop]
  | cons e rest ih =>
    simp only [List.map_cons, findLoop, List.filter_cons]
    by_cases hp : (e.getField t == v) = true
    · rw [if_pos hp, if_pos hp, ih]
      simp
    · rw [if_neg hp, if_neg hp, ih]

theorem parse_body_first (l : List Char) (rest : List (List Char))
    (h : l.head? ≠ some '[') :
    USTParser.parse (l :: rest) = none := by
  have hchunks : parseChunks (l :: rest) = none := by
    unfold parseChunks
    rw [List.foldlM_cons]
    simp [if_neg h, chunkAppendLast]
  simp [USTParser.parse, hchunks]

/-- A concrete note with the given start point, used in the examples. -/
def noteAt (sp : Int) : Note :=
  { length := 480, lyric := ['a'], note_num := 60, start_point := sp }

/-! ### The claims -/

/-- C1: the claim — `add_note` keeps `notes` sorted ascending by
`start_point`, and a note whose start point is at least every existing one is
inserted at the end — fails on the code, and the code contradicts its own
intent (the ordering invariant its parser and `sort_notes` docstring rely
on): `find_note_index` answers `len(notes) - 1` for a maximal note, and
`list.insert` places the new element *before* that index, an off-by-one
(appending would need index `len(notes)`).  Evaluated at the failing input —
a project with start points `[0, 5]`, adding a note with start point `10` —
the code produces `[0, 10, 5]`: no longer sorted, and the new note is not at
the end. -/
theorem C1_add_note_breaks_order :
    ascByStart ({ notes := [noteAt 0, noteAt 5] } : Project).notes = true ∧
    (((({ notes := [noteAt 0, noteAt 5] } : Project).add_note [noteAt 10]).1).notes.map
      Note.start_point = [0, 10, 5]) ∧
    ascByStart ((({ notes := [noteAt 0, noteAt 5] } : Project).add_note
      [noteAt 10]).1).notes = false ∧
    (((({ notes := [noteAt 0, noteAt 5] } : Project).add_note
      [noteAt 10]).1).notes.getLast?.map Note.start_point ≠ some 10) := by
  decide

/-- C2 (counterexample): the claim that `a.wav=,100.0,200.0,,50.5,` parses to
`offset=100.0, fixed=200.0, blank=0.0, preutter=50.5, overlap=0.0` is false
on the code: the two empty fields are removed by the digit filter *before*
the five-way unpack, which therefore fails and zeroes every numeric field. -/
theorem C2_counterexample :
    (OTOEntry.from_string "a.wav=,100.0,200.0,,50.5,".data).map
        (fun p => (p.1.offset, p.1.fixed, p.1.preutter)) ≠
      some (⟨false, 100, []⟩, ⟨false, 200, []⟩, ⟨false, 50, [5]⟩) := by
  decide

/-- C2 (amended): parsing the OTO line `a.wav=,100.0,200.0,,50.5,` yields
`alias = "a"` (defaulted from the filename with its extension removed) and
`file = "a.wav"`, but all five numeric fields fall back to `0` and the
diagnostic is printed: the empty alias and empty `blank`/`overlap` fields are
filtered out of the numeric group, leaving three values for the five-way
unpack, so the whole group takes the fallback. -/
theorem C2_amended_parse :
    OTOEntry.from_string "a.wav=,100.0,200.0,,50.5,".data =
      some (⟨"a.wav".data, "a".data, .zero, .zero, .zero, .zero, .zero⟩, true) := by
  decide

/-- C3 (counterexample): the claim that every `OTOSetting` operation
preserves `size = len(settings)` is false on the code: `remove_entry` pops an
entry but never updates `size`.  A one-entry setting loaded by `from_file`
satisfies the equality; after `remove_entry(0)` the size is still `1` while
the entries sequence is empty. -/
theorem C3_counterexample :
    ((OTOSetting.default.from_file ['o'] ["b.wav=b,1,2,3,4,5".data]).size =
      (OTOSetting.default.from_file ['o'] ["b.wav=b,1,2,3,4,5".data]).settings.length) ∧
    ¬ ((((OTOSetting.default.from_file ['o']
          ["b.wav=b,1,2,3,4,5".data]).remove_entry 0).1).size =
        (((OTOSetting.default.from_file ['o']
          ["b.wav=b,1,2,3,4,5".data]).remove_entry 0).1).settings.length) := by
  decide

/-- C3 (amended): `from_file` sets `size` to the number of lines read and
appends exactly that many entries (so on a fresh setting the equality
`size = len(settings)` holds afterwards), but `append_entry` and
`remove_entry` (on a valid index) change the entries sequence by one element
while leaving `size` untouched, so they do not preserve the equality. -/
theorem C3_amended (s : OTOSetting) (path : List Char) (lines : List (List Char))
    (i j : Nat) (e : OTOEntry) (hi : i < s.settings.length) :
    ((s.from_file path lines).size = lines.length ∧
      (s.from_file path lines).settings.length = s.settings.length + lines.length) ∧
    ((s.append_entry j e).size = s.size ∧
      (s.append_entry j e).settings.length = s.settings.length + 1) ∧
    (((s.remove_entry i).1).size = s.size ∧
      ((s.remove_entry i).1).settings.length + 1 = s.settings.length) := by
  refine ⟨⟨rfl, ?_⟩, ⟨rfl, ?_⟩, ?_⟩
  · simp [OTOSetting.from_file]
  · simp only [OTOSetting.append_entry, pyInsert]
    simp only [List.length_append, List.length_cons, List.length_take, List.length_drop]
    omega
  · unfold OTOSetting.remove_entry
    rw [if_pos hi]
    refine ⟨rfl, ?_⟩
    simp only [List.length_eraseIdx, hi, if_pos]
    omega

/-- C3 (witness): the amended statement evaluated on a one-entry setting. -/
theorem C3_witness :
    (0 < (⟨1, [], [some OTOEntry.default]⟩ : OTOSetting).settings.length) ∧
    (((⟨1, [], [some OTOEntry.default]⟩ : OTOSetting).from_file ['o'] []).size = 0 ∧
      ((⟨1, [], [some OTOEntry.default]⟩ : OTOSetting).from_file ['o']
        []).settings.length = 1 + 0) ∧
    (((⟨1, [], [some OTOEntry.default]⟩ : OTOSetting).append_entry 0
        OTOEntry.default).size = 1 ∧
      ((⟨1, [], [some OTOEntry.default]⟩ : OTOSetting).append_entry 0
        OTOEntry.default).settings.length = 1 + 1) ∧
    ((((⟨1, [], [some OTOEntry.default]⟩ : OTOSetting).remove_entry 0).1).size = 1 ∧
      (((⟨1, [], [some OTOEntry.default]⟩ : OTOSetting).remove_entry
        0).1).settings.length + 1 = 1) :=
  ⟨by decide, C3_amended ⟨1, [], [some OTOEntry.default]⟩ ['o'] [] 0 0
    OTOEntry.default (by decide)⟩

/-- C4 (counterexample): the claim — a line not matching the currently
expected `Field=` prefix leaves the expected-field index unchanged — is false
on the code: `i += 1 if i < len(target) - 1 else 0` advances the index on
every line.  At index 0 the line `xxx` does not match `name=`, yet the index
after the step is 1, not 0. -/
theorem C4_counterexample :
    vbMatch 0 "xxx".data = false ∧
    (vbStep (({} : VBMeta), 0) "xxx".data).2 = 1 ∧ (1 : Nat) ≠ 0 := by
  decide

/-- C4 (amended): during the `character.txt` scan the expected-field index
advances by one on *every* line, matching or not, until it reaches the last
expected field, where it stays; in particular it never regresses (the part of
the original claim that survives). -/
theorem C4_amended (st : VBMeta × Nat) (line : List Char) :
    (vbStep st line).2 = (if st.2 < vbTargets.length - 1 then st.2 + 1 else st.2) ∧
    st.2 ≤ (vbStep st line).2 := by
  refine ⟨rfl, ?_⟩
  show st.2 ≤ (if st.2 < vbTargets.length - 1 then st.2 + 1 else st.2)
  split <;> omega

/-- C5 (counterexample): the claim that an input with no recognizable chunks
yields no `Project` is false on the code: the single unrecognized chunk
header `[#FOO]` produces a default-populated `Project` (version empty,
everything else defaulted), because the dispatch loop simply skips unknown
chunk names and the constructor then runs on empty data. -/
theorem C5_counterexample :
    USTParser.parse ["[#FOO]".data] ≠ none := by
  decide

/-- C5 (amended): if a body line precedes any chunk header (in particular
when the first line is not a header), `parse` fails and returns no
`Project`; but an input whose chunks are all unrecognized is not rejected:
`parse` on the single line `[#FOO]` returns a default-populated `Project`
with an empty version string. -/
theorem C5_amended (l : List Char) (rest : List (List Char))
    (h : l.head? ≠ some '[') :
    USTParser.parse (l :: rest) = none ∧
    USTParser.parse ["[#FOO]".data] = some { version := ([] : List Char) } := by
  exact ⟨parse_body_first l rest h, by decide⟩

/-- C5 (witness): the amended statement evaluated at the body line `x=y`. -/
theorem C5_witness :
    ("x=y".data.head? ≠ some '[') ∧
    (USTParser.parse ["x=y".data] = none ∧
      USTParser.parse ["[#FOO]".data] = some { version := ([] : List Char) }) :=
  ⟨by decide, C5_amended "x=y".data [] (by decide)⟩

/-- C6: loading a persisted project container from a truncated or
non-container file (the `EOFError` / `pickle.UnpicklingError` outcomes of the
external `pickle.loads` call) or from a well-formed container whose top-level
object is not a `Project` (the failed `isinstance` assertion) yields no
`Project` and logs the "is not a valid project file" diagnostic, which is
distinct from the missing-file and unknown-error reports; no failure path
escapes the function. -/
theorem C6_from_file_rejects (o : PickleOutcome)
    (h : o = .errEOF ∨ o = .errUnpickling ∨ o = .value .other) :
    Project.from_file true o = (none, some LoadMsg.invalidProjectFile) ∧
    LoadMsg.invalidProjectFile ≠ LoadMsg.notAFile ∧
    LoadMsg.invalidProjectFile ≠ LoadMsg.unknownError := by
  rcases h with rfl | rfl | rfl <;> exact ⟨rfl, by decide, by decide⟩

/-- C6 (witness): the truncated-container outcome. -/
theorem C6_witness :
    (PickleOutcome.errUnpickling = PickleOutcome.errEOF ∨
      PickleOutcome.errUnpickling = PickleOutcome.errUnpickling ∨
      PickleOutcome.errUnpickling = PickleOutcome.value PickleTop.other) ∧
    (Project.from_file true PickleOutcome.errUnpickling =
        (none, some LoadMsg.invalidProjectFile) ∧
      LoadMsg.invalidProjectFile ≠ LoadMsg.notAFile ∧
      LoadMsg.invalidProjectFile ≠ LoadMsg.unknownError) :=
  ⟨Or.inr (Or.inl rfl), C6_from_file_rejects _ (Or.inr (Or.inl rfl))⟩

/-- C7: for every OTO line whose numeric group fails to parse (the line does
split at an `=`, and the filtered-then-unpacked group raises the
`ValueError`), `from_string` still returns an entry — with all five numeric
fields set to `0` and the diagnostic flag set (the code prints the offending
line and the substituted defaults) — instead of rejecting the line; since
`from_file` just appends the result of each line, the surrounding file parse
is not aborted. -/
theorem C7_group_fallback (line0 f rest : List Char)
    (h1 : splitOnce '=' (removeFirst '\n' line0) = some (f, rest))
    (h2 : groupResult ((splitN ',' 5 rest).drop 1) = none) :
    (OTOEntry.from_string line0).map
        (fun p => (p.1.offset, p.1.fixed, p.1.blank, p.1.preutter, p.1.overlap, p.2)) =
      some (PFloat.zero, PFloat.zero, PFloat.zero, PFloat.zero, PFloat.zero, true) ∧
    (OTOEntry.from_string line0).isSome = true := by
  simp only [OTOEntry.from_string, h1, h2, Option.isSome_some]
  exact ⟨rfl, trivial⟩

/-- C7 (witness): the malformed line `b.wav=xx,foo`. -/
theorem C7_witness :
    (splitOnce '=' (removeFirst '\n' "b.wav=xx,foo".data) =
        some ("b.wav".data, "xx,foo".data) ∧
      groupResult ((splitN ',' 5 "xx,foo".data).drop 1) = none) ∧
    ((OTOEntry.from_string "b.wav=xx,foo".data).map
        (fun p => (p.1.offset, p.1.fixed, p.1.blank, p.1.preutter, p.1.overlap, p.2)) =
      some (PFloat.zero, PFloat.zero, PFloat.zero, PFloat.zero, PFloat.zero, true) ∧
    (OTOEntry.from_string "b.wav=xx,foo".data).isSome = true) :=
  ⟨⟨by decide, by decide⟩, C7_group_fallback "b.wav=xx,foo".data "b.wav".data
    "xx,foo".data (by decide) (by decide)⟩

/-- C9 (counterexample): the claim that `find_entries` always returns the
matching entries or a single default entry fails on a reachable
`OTOSetting`: loading a file whose only line is a bare newline appends the
`None` left by the failed line parse, and the lookup then dies on
`None.__getattribute__`, returning the absent value — neither a list of
matches nor the default sentinel. -/
theorem C9_counterexample :
    (OTOSetting.default.from_file ['o'] ["\n".data]).find_entry OTOField.file
        (FieldVal.s ['x']) = none ∧
    (OTOSetting.default.from_file ['o'] ["\n".data]).find_entry OTOField.file
        (FieldVal.s ['x']) ≠ some [OTOEntry.default] := by
  decide

/-- C9 (amended): for every `OTOSetting` whose stored entries are all present
(no failed line parse), and every `VoiceBank` whose aggregated settings have
the same property, `find_entry` returns exactly the entries whose named field
equals the queried value, in first-seen scan order, and returns the single
default-valued entry when there is no match — never an empty sequence; if
any stored entry is the `None` of a failed parse, the lookup itself returns
the absent value instead. -/
theorem C9_amended (t : OTOField) (v : FieldVal) (sz : Nat) (pth : List Char)
    (es fes : List OTOEntry) (sets : List OTOSetting)
    (hflat : sets.flatMap OTOSetting.settings = fes.map some) :
    OTOSetting.find_entry ⟨sz, pth, es.map some⟩ t v =
      some (if (es.filter (fun e => e.getField t == v)).isEmpty then
        [OTOEntry.default] else es.filter (fun e => e.getField t == v)) ∧
    VoiceBank.find_entry sets t v =
      some (if (fes.filter (fun e => e.getField t == v)).isEmpty then
        [OTOEntry.default] else fes.filter (fun e => e.getField t == v)) := by
  constructor
  · unfold OTOSetting.find_entry
    rw [show (⟨sz, pth, es.map some⟩ : OTOSetting).settings = es.map some from rfl,
      findLoop_map_some]
    simp
  · unfold VoiceBank.find_entry
    rw [hflat, findLoop_map_some]
    simp

/-- C9 (witness): a one-entry setting queried for a missing and a present
value, and an empty voicebank. -/
theorem C9_witness :
    (([] : List OTOSetting).flatMap OTOSetting.settings =
      ([] : List OTOEntry).map some) ∧
    (OTOSetting.find_entry ⟨1, [], [OTOEntry.default].map some⟩ OTOField.file
        (FieldVal.s ['q']) =
      some (if ([OTOEntry.default].filter
          (fun e => e.getField OTOField.file == FieldVal.s ['q'])).isEmpty then
        [OTOEntry.default] else [OTOEntry.default].filter
          (fun e => e.getField OTOField.file == FieldVal.s ['q'])) ∧
    VoiceBank.find_entry [] OTOField.file (FieldVal.s ['q']) =
      some (if (([] : List OTOEntry).filter
          (fun e => e.getField OTOField.file == FieldVal.s ['q'])).isEmpty then
        [OTOEntry.default] else ([] : List OTOEntry).filter
          (fun e => e.getField OTOField.file == FieldVal.s ['q']))) :=
  ⟨rfl, C9_amended OTOField.file (FieldVal.s ['q']) 1 [] [OTOEntry.default] [] []
    rfl⟩

/-- C10: on a project whose notes list is empty, `add_note` with any
non-empty batch of new notes adds nothing and returns the absent value: the
insertion-index computation reads the first element of the empty
start-point list, the `IndexError` is swallowed (the call returns `None`),
and `list.insert(None, note)` then raises the `TypeError` that
`add_note`'s own decorator swallows — so the notes list stays empty and the
caller receives nothing. -/
theorem C10_add_note_on_empty (p : Project) (ns : List Note)
    (h1 : p.notes = []) (h2 : ns ≠ []) :
    ((p.add_note ns).1).notes = [] ∧ (p.add_note ns).2 = none := by
  obtain ⟨n, rest, rfl⟩ := List.exists_cons_of_ne_nil h2
  unfold Project.add_note
  have hsort : p.sort_notes = { p with notes := [] } := by
    unfold Project.sort_notes
    rw [h1]
    rfl
  rw [hsort]
  have hstep : addNoteStep { p with notes := [] } n = none := rfl
  simp only [addNoteGo, hstep]
  exact ⟨trivial, trivial⟩

/-- C10 (witness): the empty default project and a single new note. -/
theorem C10_witness :
    ((({} : Project).notes = []) ∧ ([noteAt 1] ≠ ([] : List Note))) ∧
    (((({} : Project).add_note [noteAt 1]).1).notes = [] ∧
      (({} : Project).add_note [noteAt 1]).2 = none) :=
  ⟨⟨rfl, by decide⟩, C10_add_note_on_empty _ _ rfl (by decide)⟩

end CactiSynth
